import Mathlib

/- Shallow embedding of the xmtp-copilot session/cancellation core:
   the `SessionManager` and `ClaudeHandler` classes of
   `src/utils/claude-handler.ts` and the two channel adapters (the XMTP
   `agent.on("text")` handler and the Slack `XMTPSlackBot` message handler). -/

/-- Role of a turn in a session's message list (`"user" | "assistant"`). -/
inductive Role where
  | user
  | assistant
deriving DecidableEq, Repr

/-- One turn of a session (`{ role, content }`). -/
structure Message where
  role : Role
  content : String
deriving DecidableEq, Repr

/-- JavaScript `x || d` on an optional string: `undefined` and the empty
string are both falsy, so both fall through to the default. -/
def jsOrString (t : Option String) (d : String) : String :=
  match t with
  | none => d
  | some s => if s = "" then d else s

/-- `SessionManager.getSessionKey`: returns
`` `${userId}-${channelId}-${threadTs || "direct"}` ``. -/
def getSessionKey (userId channelId : String) (threadTs : Option String) : String :=
  userId ++ "-" ++ channelId ++ "-" ++ jsOrString threadTs "direct"

/-- JavaScript `String.prototype.trim`: strips whitespace from both ends. -/
def jsTrim (s : String) : String :=
  String.mk (((s.data.dropWhile Char.isWhitespace).reverse.dropWhile Char.isWhitespace).reverse)

/-- JavaScript `String.prototype.includes` on the underlying character
lists: the needle occurs as a contiguous run somewhere in the haystack. -/
def jsIncludesChars (needle : List Char) : List Char → Bool
  | [] => needle.isPrefixOf ([] : List Char)
  | c :: rest => needle.isPrefixOf (c :: rest) || jsIncludesChars needle rest

/-- JavaScript `hay.includes(needle)`. -/
def jsIncludes (hay needle : String) : Bool :=
  jsIncludesChars needle.data hay.data

/-- JavaScript `String.prototype.startsWith`. -/
def jsStartsWith (s p : String) : Bool :=
  p.data.isPrefixOf s.data

/- ### Abort-controller bookkeeping

`SessionManager.activeControllers : Map<string, AbortController>` together
with the one-bit aborted state of each `AbortController` ever created.
Controllers are identified by numeric ids; `aborted` records which ids have
had `.abort()` called on them (an `AbortController`'s signal is monotone:
once aborted it stays aborted). -/
structure CtrlState where
  controllers : String → Option Nat
  aborted : Nat → Bool

/-- Initial state: no controller registered for any key, none aborted. -/
def emptyCtrl : CtrlState :=
  { controllers := fun _ => none, aborted := fun _ => false }

/-- Effect of `controller.abort()` on controller id `c`. -/
def abortOne (c : Nat) (st : CtrlState) : CtrlState :=
  { st with aborted := fun i => if i = c then true else st.aborted i }

/-- Lines 37-40 of the XMTP handler (and 118-121 of the Slack handler):
`const existing = activeControllers.get(key); if (existing) existing.abort();`
— aborts the registered controller but does not remove the map entry. -/
def cancelExisting (k : String) (st : CtrlState) : CtrlState :=
  match st.controllers k with
  | some c => abortOne c st
  | none => st

/-- `activeControllers.set(key, controller)` for a fresh controller id. -/
def registerCtrl (k : String) (c : Nat) (st : CtrlState) : CtrlState :=
  { st with controllers := fun x => if x = k then some c else st.controllers x }

/-- The `finally` clause of both adapters:
`activeControllers.delete(sessionKey)` — unconditional removal of whatever
entry is stored under the key, with no identity check against the
invocation's own controller and no abort call. -/
def deleteCtrl (k : String) (st : CtrlState) : CtrlState :=
  { st with controllers := fun x => if x = k then none else st.controllers x }

/-- How one handler invocation can settle. -/
inductive HOutcome where
  | success
  | failure
  | cancelled
deriving DecidableEq, Repr

/-- Effect of one whole handler invocation on the controller state, as a
function of its outcome: cancel any existing controller, register a fresh
one, run the try/catch body (which never touches `activeControllers` on any
of the three outcome branches), then run the `finally` clause. -/
def handlerCtrlRun (k : String) (c : Nat) (o : HOutcome) (st : CtrlState) : CtrlState :=
  let st1 := registerCtrl k c (cancelExisting k st)
  let st2 :=
    match o with
    | .success => st1
    | .failure => st1
    | .cancelled => st1
  deleteCtrl k st2

/- ### The subprocess runner `ClaudeHandler.executeClaudeCommand`

The promise executor registers handlers for stdout data, stderr data,
`close`, `error`, a 30-second timeout, and the abort signal.  We model one
runner invocation as a fold over the sequence of events delivered by the
event loop; a JavaScript promise settles at most once, so the first
`resolve`/`reject` wins, while the data listeners keep accumulating. -/

/-- A JavaScript `Error` as the adapters observe it: `name` and `message`.
`new Error(msg)` has name `"Error"`. -/
structure JsError where
  name : String
  message : String
deriving DecidableEq, Repr

/-- How the runner's promise settles. -/
inductive SettleResult where
  | resolved (text : String)
  | rejected (e : JsError)
deriving DecidableEq, Repr

/-- Events the runner's listeners can receive. -/
inductive ProcEvent where
  | stdoutData (s : String)
  | stderrData (s : String)
  | closed (code : Int)
  | errored (e : JsError)
  | timeoutFired
  | abortFired
deriving DecidableEq, Repr

/-- The rejection built by the 30-second timeout:
`reject(new Error("Claude CLI request timed out after 30 seconds"))`. -/
def timeoutError : JsError :=
  { name := "Error", message := "Claude CLI request timed out after 30 seconds" }

/-- The rejection built by the abort listener:
`reject(new Error("Request aborted"))`. -/
def abortRejectError : JsError :=
  { name := "Error", message := "Request aborted" }

/-- The rejection built on a non-zero close:
`` reject(new Error(`Claude CLI exited with code ${code}: ${stderr}`)) ``. -/
def exitError (code : Int) (stderr : String) : JsError :=
  { name := "Error", message := "Claude CLI exited with code " ++ toString code ++ ": " ++ stderr }

/-- State of one runner invocation: the two accumulators and how (if yet)
the promise has settled. -/
structure RunState where
  stdout : String
  stderr : String
  settled : Option SettleResult
deriving DecidableEq, Repr

/-- Runner state before any event: empty accumulators, promise pending. -/
def initRunState : RunState :=
  { stdout := "", stderr := "", settled := none }

/-- One event hitting the runner's listeners.  Data events append to the
accumulators; `close` with code 0 resolves with the trimmed stdout, with a
non-zero code rejects with `exitError`; `error`, the timeout and the abort
listener reject with the corresponding errors.  A settled promise ignores
further resolve/reject calls. -/
def applyEvent (st : RunState) (e : ProcEvent) : RunState :=
  match e with
  | .stdoutData s => { st with stdout := st.stdout ++ s }
  | .stderrData s => { st with stderr := st.stderr ++ s }
  | .closed code =>
      if st.settled.isSome then st
      else if code = 0 then { st with settled := some (.resolved (jsTrim st.stdout)) }
      else { st with settled := some (.rejected (exitError code st.stderr)) }
  | .errored e =>
      if st.settled.isSome then st
      else { st with settled := some (.rejected e) }
  | .timeoutFired =>
      if st.settled.isSome then st
      else { st with settled := some (.rejected timeoutError) }
  | .abortFired =>
      if st.settled.isSome then st
      else { st with settled := some (.rejected abortRejectError) }

/-- A whole runner invocation: fold the delivered events over the initial
state. -/
def runEvents (evs : List ProcEvent) : RunState :=
  evs.foldl applyEvent initRunState

/-- The error-suppression test used by `streamFromClaude` and by both
adapters' catch blocks: `error.name !== "AbortError"` — the error is shown
(logged / surfaced to the user) exactly when this is true. -/
def showsErrorToUser (e : JsError) : Bool :=
  e.name != "AbortError"

/-- Line 172 of `claude-handler.ts`:
`spawn("claude", ["--print", `"${prompt}"`], { shell: true, ... })` — the
argument vector handed to `spawn`, with the prompt wrapped in literal
double-quote characters for the shell. -/
def spawnArgs (prompt : String) : List String :=
  ["--print", "\"" ++ prompt ++ "\""]

/-- `ClaudeHandler.convertMessagesToPrompt`: keep only the user turns, `pop`
the last one and use its content, falling back to `"Hello"` when there is no
user turn. -/
def convertMessagesToPrompt (messages : List Message) : String :=
  match (messages.filter (fun m => m.role == Role.user)).getLast? with
  | some m => m.content
  | none => "Hello"

/- ### `streamFromClaude`'s simulated streaming and the adapters' loops -/

/-- The slicing loop of `streamFromClaude`
(`for (let i = 0; i < fullResponse.length; i += chunkSize) ... slice(i, i + chunkSize)`,
`chunkSize = 50`), written with the character count as structural fuel: each
step takes one 50-character slice and recurses on the rest. -/
def chunkifyCharsFuel : Nat → List Char → List (List Char)
  | 0, _ => []
  | _, [] => []
  | fuel + 1, l => l.take 50 :: chunkifyCharsFuel fuel (l.drop 50)

/-- The chunks `streamFromClaude` yields for a full response. -/
def chunkify (s : String) : List String :=
  (chunkifyCharsFuel s.data.length s.data).map String.mk

/-- The adapters' accumulation loop
(`for await (const chunk of ...) { if (abortController.signal.aborted) break; fullResponse += chunk; }`)
as a function of the chunk list and of the first loop iteration at which the
(monotone) abort signal is observed as fired: iterations before `abortAt`
see the signal clear and accumulate, the iteration at `abortAt` breaks. -/
def consumeChunks : List String → Nat → String
  | [], _ => ""
  | _ :: _, 0 => ""
  | c :: cs, abortAt + 1 => c ++ consumeChunks cs abortAt

/-- `session.messages.push({ role: "user", content })`. -/
def pushUser (session : List Message) (t : String) : List Message :=
  session ++ [{ role := Role.user, content := t }]

/-- Lines 63-74 of the XMTP `agent.on("text")` handler, after the streaming
loop ends: `if (fullResponse.trim()) { await ctx.sendText(fullResponse);
session.messages.push({ role: "assistant", content: fullResponse }); }` —
returns the session's messages and the list of outbound sends.  Note there
is no abort-signal check here. -/
def xmtpAfterStream (session : List Message) (full : String) : List Message × List String :=
  if jsTrim full = "" then (session, [])
  else (session ++ [{ role := Role.assistant, content := full }], [full])

/-- Lines 258-264 of `XMTPSlackBot.processMessage`, after the streaming
loop: `if (fullResponse.trim()) { session.messages.push({ role: "assistant",
content: fullResponse }); }` — again with no abort-signal check. -/
def slackAppendAssistant (session : List Message) (full : String) : List Message :=
  if jsTrim full = "" then session
  else session ++ [{ role := Role.assistant, content := full }]

/-- Number of assistant turns in a session's message list. -/
def countAssistant (l : List Message) : Nat :=
  (l.filter (fun m => m.role == Role.assistant)).length

/- ### The Slack inbound gate (lines 88-103 of `slack-bot.ts`)

`if (subtype === 'bot_message' || !text || text.trim() === '') return;`
`if (user === 'USLACKBOT' || user?.startsWith('B')) return;`
`const mentionsBot = text.includes('<@') && text.includes('>');`
`if (!mentionsBot) return;`  — otherwise the message is processed. -/

/-- The `mentionsBot` test: the text contains `<@` somewhere and `>`
somewhere.  It takes no bot identity at all. -/
def mentionsBot (text : String) : Bool :=
  jsIncludes text "<@" && jsIncludes text ">"

/-- Whether the Slack message handler proceeds to process the message
(create/update a session and invoke the runner). -/
def slackGate (subtype : Option String) (user : String) (text : String) : Bool :=
  if subtype == some "bot_message" || text == "" || jsTrim text == "" then false
  else if user == "USLACKBOT" || jsStartsWith user "B" then false
  else mentionsBot text

/- ### A concrete two-message schedule for one session key

The event-loop interleaving modelled (all steps are possible on Node's
single-threaded loop, with suspension points at the subprocess promise and
at the 50 ms inter-chunk timer of `streamFromClaude`):
1. invocation A for key k pushes its user turn and awaits the subprocess,
   which resolves with the 60-character response `respA` (2 chunks);
2. A accumulates chunk 0 and suspends on the inter-chunk timer;
3. a second inbound message for k arrives: invocation B aborts A's
   controller, registers its own, pushes its user turn and suspends on its
   own subprocess;
4. A's timer fires, the loop observes the aborted signal at iteration 1 and
   breaks with the partial `fullResponse` = chunk 0; the post-loop code runs
   unconditionally: A sends the partial text and appends it as an assistant
   turn;
5. B's subprocess resolves `respB`, B accumulates every chunk unaborted,
   sends and appends its assistant turn. -/

/-- Invocation A's full response (60 characters, so two 50/10 chunks). -/
def respA : String := String.mk (List.replicate 60 'a')

/-- Invocation B's full response. -/
def respB : String := "Here is the answer to the second question."

/-- Session messages after step 3: both user turns pushed. -/
def scenarioUsers : List Message :=
  pushUser (pushUser [] "first question") "second question"

/-- Step 4: invocation A's partial accumulation — the abort signal is
observed fired at loop iteration 1, after chunk 0 was accumulated. -/
def fullA : String := consumeChunks (chunkify respA) 1

/-- Step 4: the cancelled invocation A's post-loop append and send. -/
def scenarioStepA : List Message × List String := xmtpAfterStream scenarioUsers fullA

/-- Step 5: invocation B accumulates every chunk (never aborted). -/
def fullB : String := consumeChunks (chunkify respB) (chunkify respB).length

/-- Step 5: invocation B's post-loop append and send. -/
def scenarioStepB : List Message × List String := xmtpAfterStream scenarioStepA.1 fullB

/-- Whether an event is one of the two data events (which only accumulate
and never settle the promise). -/
def isDataEvent : ProcEvent → Bool
  | .stdoutData _ => true
  | .stderrData _ => true
  | _ => false

/-- Concatenation of the stdout chunks of an event sequence, in order. -/
def stdoutOfEvents : List ProcEvent → String
  | [] => ""
  | .stdoutData s :: r => s ++ stdoutOfEvents r
  | _ :: r => stdoutOfEvents r

/- ### Helper lemmas (shared) -/

/-- String append is left-cancellative. -/
theorem string_append_cancel_left {p a b : String} (h : p ++ a = p ++ b) : a = b := by
  apply String.ext
  have hd := congrArg String.data h
  rw [String.data_append, String.data_append] at hd
  exact List.append_cancel_left hd

/-- `jsOrString` keeps a non-empty string. -/
theorem jsOrString_some_ne {t : String} (d : String) (h : t ≠ "") :
    jsOrString (some t) d = t := by
  simp [jsOrString, h]

/-- A run of data events leaves the promise pending and appends the stdout
chunks (in order) to the stdout accumulator. -/
theorem runner_data_events_pending (evs : List ProcEvent) (st : RunState)
    (hset : st.settled = none) (hdata : ∀ e ∈ evs, isDataEvent e = true) :
    (evs.foldl applyEvent st).settled = none
    ∧ (evs.foldl applyEvent st).stdout = st.stdout ++ stdoutOfEvents evs := by
  induction evs generalizing st with
  | nil => exact ⟨hset, by simp [stdoutOfEvents]⟩
  | cons e r ih =>
    cases e with
    | stdoutData s =>
      have ihr := ih { st with stdout := st.stdout ++ s } hset
        (fun x hx => hdata x (List.mem_cons_of_mem _ hx))
      refine ⟨ihr.1, ?_⟩
      rw [List.foldl_cons]
      show (r.foldl applyEvent { st with stdout := st.stdout ++ s }).stdout = _
      rw [ihr.2, stdoutOfEvents, String.append_assoc]
    | stderrData s =>
      have ihr := ih { st with stderr := st.stderr ++ s } hset
        (fun x hx => hdata x (List.mem_cons_of_mem _ hx))
      exact ⟨ihr.1, by rw [List.foldl_cons]; exact ihr.2⟩
    | closed code => simpa [isDataEvent] using hdata (.closed code) (by simp)
    | errored e => simpa [isDataEvent] using hdata (.errored e) (by simp)
    | timeoutFired => simpa [isDataEvent] using hdata .timeoutFired (by simp)
    | abortFired => simpa [isDataEvent] using hdata .abortFired (by simp)

/- ### The claims -/

/-- C1: the claim says a cancelled invocation never appends its (possibly
partial) assistant turn and that the abort signal is checked before every
append and outbound send.  Evaluating the embedded handler on the two-message
schedule above shows the opposite: the cancelled invocation A sends its
partial 50-character output and appends it as an assistant turn (the
post-loop code has no abort check), so the session ends with two assistant
turns for the two messages, and A's accumulated text is a strict prefix of
its full response. -/
theorem c1_cancelled_invocation_still_appends :
    countAssistant scenarioStepB.1 = 2
    ∧ scenarioStepA.2 = [String.mk (List.replicate 50 'a')]
    ∧ fullA ≠ respA := by decide

/-- C2: the claim that `getSessionKey` is injective on its argument triple is
false at these concrete inputs: the empty-string thread and the thread id
`"direct"` both collide with the no-thread key, and components containing the
`"-"` separator collide across positions. -/
theorem c2_counterexample_key_collisions :
    getSessionKey "u" "c" (some "") = getSessionKey "u" "c" none
    ∧ getSessionKey "u" "c" (some "direct") = getSessionKey "u" "c" none
    ∧ getSessionKey "a-b" "c" none = getSessionKey "a" "b-c" none := by decide

/-- C2 (amended): for a fixed user and channel, distinct non-empty thread ids
produce distinct keys, and the no-thread key differs from the key of any
non-empty thread id other than `"direct"`. -/
theorem c2_amended_distinct_threads :
    (∀ u c t1 t2 : String, t1 ≠ "" → t2 ≠ "" → t1 ≠ t2 →
      getSessionKey u c (some t1) ≠ getSessionKey u c (some t2))
    ∧ (∀ u c t : String, t ≠ "" → t ≠ "direct" →
      getSessionKey u c none ≠ getSessionKey u c (some t)) := by
  constructor
  · intro u c t1 t2 h1 h2 hne heq
    rw [getSessionKey, getSessionKey, jsOrString_some_ne _ h1, jsOrString_some_ne _ h2] at heq
    exact hne (string_append_cancel_left heq)
  · intro u c t h1 hd heq
    rw [getSessionKey, getSessionKey, jsOrString_some_ne _ h1] at heq
    exact hd (string_append_cancel_left heq).symm

/-- C2 (witness): the amended statement applied at concrete inputs. -/
theorem c2_amended_witness :
    getSessionKey "u" "c" (some "t1") ≠ getSessionKey "u" "c" (some "t2")
    ∧ getSessionKey "u" "c" none ≠ getSessionKey "u" "c" (some "t1") :=
  ⟨c2_amended_distinct_threads.1 "u" "c" "t1" "t2" (by decide) (by decide) (by decide),
   c2_amended_distinct_threads.2 "u" "c" "t1" (by decide) (by decide)⟩

/-- C3: evaluating the runner at the failing input (the abort signal fires
while the promise is pending): it rejects with `new Error("Request aborted")`,
whose `name` is `"Error"` — exactly like the timeout and exit-code errors, and
not the `"AbortError"` that the adapters' `error.name !== "AbortError"` checks
look for — so by the code's own distinguishing mechanism the cancellation
rejection is shown (logged / surfaced) like any other failure. -/
theorem c3_abort_rejection_not_distinguished :
    (runEvents [ProcEvent.abortFired]).settled = some (SettleResult.rejected abortRejectError)
    ∧ abortRejectError.name = "Error"
    ∧ timeoutError.name = "Error"
    ∧ (exitError 1 "boom").name = "Error"
    ∧ showsErrorToUser abortRejectError = true
    ∧ showsErrorToUser abortRejectError = showsErrorToUser timeoutError := by decide

/-- C4: the claim that the argument vector is exactly `["--print", p]` is
false at the concrete prompt `"hello"`: the vector wraps the prompt in
literal double quotes. -/
theorem c4_counterexample_prompt_quoted :
    spawnArgs "hello" ≠ ["--print", "hello"] := by decide

/-- C4 (amended): for every prompt the spawn argument vector is
`["--print", "\"" ++ p ++ "\""]` — the prompt wrapped in literal double-quote
characters (handed to a shell) — and the wrapped string never equals the
unmodified prompt. -/
theorem c4_amended_spawn_vector (p : String) :
    spawnArgs p = ["--print", "\"" ++ p ++ "\""] ∧ "\"" ++ p ++ "\"" ≠ p := by
  refine ⟨rfl, fun h => ?_⟩
  have hl := congrArg String.length h
  have h1 : ("\"" : String).length = 1 := rfl
  rw [String.length_append, String.length_append, h1] at hl
  omega

/-- C5: after invocation A registers controller `cA` and a newer invocation B
cancels it and registers its own fresh controller `cB`, A's `finally` clause
(`activeControllers.delete(sessionKey)`) removes B's still-in-flight
controller from the map — the entry for the key is gone — while `cB` is never
aborted, leaving B with no registered cancellation handle. -/
theorem c5_settle_deletes_newer_controller
    (st : CtrlState) (k : String) (cA cB : Nat)
    (hne : cA ≠ cB) (hfresh : st.aborted cB = false) :
    (registerCtrl k cB (cancelExisting k (registerCtrl k cA st))).controllers k = some cB
    ∧ (deleteCtrl k (registerCtrl k cB (cancelExisting k (registerCtrl k cA st)))).controllers k
        = none
    ∧ (deleteCtrl k (registerCtrl k cB (cancelExisting k (registerCtrl k cA st)))).aborted cB
        = false := by
  have hcb : ¬(cB = cA) := fun h => hne h.symm
  refine ⟨by simp [registerCtrl, cancelExisting, abortOne], by simp [deleteCtrl], ?_⟩
  simp [deleteCtrl, registerCtrl, cancelExisting, abortOne, hcb, hfresh]

/-- C5 (witness): the theorem at the empty initial state, key
`"u-c-direct"`, controllers 0 (invocation A) and 1 (invocation B). -/
theorem c5_witness :
    (registerCtrl "u-c-direct" 1 (cancelExisting "u-c-direct"
        (registerCtrl "u-c-direct" 0 emptyCtrl))).controllers "u-c-direct" = some 1
    ∧ (deleteCtrl "u-c-direct" (registerCtrl "u-c-direct" 1 (cancelExisting "u-c-direct"
        (registerCtrl "u-c-direct" 0 emptyCtrl)))).controllers "u-c-direct" = none
    ∧ (deleteCtrl "u-c-direct" (registerCtrl "u-c-direct" 1 (cancelExisting "u-c-direct"
        (registerCtrl "u-c-direct" 0 emptyCtrl)))).aborted 1 = false :=
  c5_settle_deletes_newer_controller emptyCtrl "u-c-direct" 0 1 (by decide) rfl

/-- C6: the claim that partial captured output is surfaced as part of the
rejection on timeout, cancellation and process error is false at these
concrete runs: the rejection is identical whether or not output was captured
(so nothing of the captured text is surfaced), and the timeout rejection's
fixed message does not contain the captured stdout or stderr text. -/
theorem c6_counterexample_output_dropped :
    (runEvents [ProcEvent.stdoutData "got this far", ProcEvent.stderrData "warn so far",
        ProcEvent.timeoutFired]).settled = (runEvents [ProcEvent.timeoutFired]).settled
    ∧ (runEvents [ProcEvent.stdoutData "got this far", ProcEvent.abortFired]).settled
        = (runEvents [ProcEvent.abortFired]).settled
    ∧ (runEvents [ProcEvent.stdoutData "got this far",
        ProcEvent.errored { name := "Error", message := "spawn claude ENOENT" }]).settled
        = (runEvents [ProcEvent.errored
            { name := "Error", message := "spawn claude ENOENT" }]).settled
    ∧ (runEvents [ProcEvent.stdoutData "got this far", ProcEvent.stderrData "warn so far",
        ProcEvent.timeoutFired]).settled = some (SettleResult.rejected timeoutError)
    ∧ jsIncludes timeoutError.message "got this far" = false
    ∧ jsIncludes timeoutError.message "warn so far" = false := by decide

/-- C6 (amended): output is captured incrementally, and the non-zero-exit
rejection does surface the captured stderr in its message; but the timeout,
cancellation and process-error rejections are fixed (or the underlying
error) and carry none of the captured output. -/
theorem c6_amended_only_exit_surfaces_output (out err : String) (e : JsError) :
    (applyEvent { stdout := out, stderr := err, settled := none } ProcEvent.timeoutFired).settled
        = some (SettleResult.rejected timeoutError)
    ∧ (applyEvent { stdout := out, stderr := err, settled := none } ProcEvent.abortFired).settled
        = some (SettleResult.rejected abortRejectError)
    ∧ (applyEvent { stdout := out, stderr := err, settled := none } (ProcEvent.errored e)).settled
        = some (SettleResult.rejected e)
    ∧ ∀ code : Int, code ≠ 0 →
        (applyEvent { stdout := out, stderr := err, settled := none }
            (ProcEvent.closed code)).settled
          = some (SettleResult.rejected (exitError code err)) := by
  refine ⟨rfl, rfl, rfl, fun code hc => ?_⟩
  simp [applyEvent, hc]

/-- C6 (witness): the amended statement at concrete accumulators, with the
non-zero-exit hypothesis discharged at exit code 1. -/
theorem c6_amended_witness :
    (applyEvent { stdout := "o", stderr := "boom", settled := none }
        (ProcEvent.closed 1)).settled = some (SettleResult.rejected (exitError 1 "boom"))
    ∧ (applyEvent { stdout := "o", stderr := "boom", settled := none }
        ProcEvent.timeoutFired).settled = some (SettleResult.rejected timeoutError) :=
  ⟨(c6_amended_only_exit_surfaces_output "o" "boom"
      { name := "Error", message := "x" }).2.2.2 1 (by decide),
   (c6_amended_only_exit_surfaces_output "o" "boom" { name := "Error", message := "x" }).1⟩

/-- C7: for any session whose message list has at least one user turn —
written as `pre ++ m :: post` with `m` a user turn and no user turn after it —
the prompt handed to the subprocess is exactly the content of that most
recent user turn; every earlier turn is ignored by the prompt builder. -/
theorem c7_prompt_is_last_user_turn
    (pre post : List Message) (m : Message)
    (hm : m.role = Role.user) (hpost : ∀ x ∈ post, x.role ≠ Role.user) :
    convertMessagesToPrompt (pre ++ m :: post) = m.content := by
  have hfp : post.filter (fun x => x.role == Role.user) = [] := by
    rw [List.filter_eq_nil_iff]
    intro a ha
    simpa [beq_iff_eq] using hpost a ha
  have hstep : (pre ++ m :: post).filter (fun x => x.role == Role.user)
      = pre.filter (fun x => x.role == Role.user) ++ [m] := by
    rw [List.filter_append]
    congr 1
    rw [List.filter_cons_of_pos (by simp [beq_iff_eq, hm]), hfp]
  unfold convertMessagesToPrompt
  rw [hstep, List.getLast?_concat]

/-- C7 (witness): a four-turn session; the prompt is the content of the
second (most recent) user turn. -/
theorem c7_witness :
    convertMessagesToPrompt
      [{ role := Role.user, content := "hi" }, { role := Role.assistant, content := "yo" },
       { role := Role.user, content := "second" }, { role := Role.assistant, content := "x" }]
      = "second" :=
  c7_prompt_is_last_user_turn
    [{ role := Role.user, content := "hi" }, { role := Role.assistant, content := "yo" }]
    [{ role := Role.assistant, content := "x" }]
    { role := Role.user, content := "second" } rfl (by decide)

/-- C8: whatever the outcome of a handler invocation — success, failure or
cancellation — the `finally` clause runs and the controller map ends with no
entry for the invocation's key, so no key is left permanently holding a
stale in-flight handle. -/
theorem c8_cleanup_runs_regardless_of_outcome
    (o : HOutcome) (st : CtrlState) (k : String) (c : Nat) :
    (handlerCtrlRun k c o st).controllers k = none := by
  cases o <;> simp [handlerCtrlRun, deleteCtrl, registerCtrl, cancelExisting]

/-- C9: evaluating the Slack gate at the failing inputs: a message from an
ordinary user that mentions only some other user (`<@U999OTHER>`), and even a
message with a stray `<@` and `>` that mentions nobody, both pass the gate
and are processed — the `mentionsBot` test consults no bot identity at all. -/
theorem c9_gate_fires_on_any_mention :
    slackGate none "U111AAAA" "hi <@U999OTHER> please" = true
    ∧ slackGate none "U111AAAA" "a <@ stray > b" = true
    ∧ mentionsBot "hi <@U999OTHER> please" = true := by decide

/-- C10: for every runner invocation that receives only data events and then
a close with exit code 0, the promise resolves with the accumulated stdout
text trimmed of leading and trailing whitespace. -/
theorem c10_exit_zero_resolves_trimmed_stdout
    (evs : List ProcEvent) (hdata : ∀ e ∈ evs, isDataEvent e = true) :
    (runEvents (evs ++ [ProcEvent.closed 0])).settled
      = some (SettleResult.resolved (jsTrim (stdoutOfEvents evs))) := by
  have h := runner_data_events_pending evs initRunState rfl hdata
  have h2 : (List.foldl applyEvent initRunState evs).stdout = stdoutOfEvents evs := by
    rw [h.2]
    simp [initRunState]
  unfold runEvents
  rw [List.foldl_append, List.foldl_cons, List.foldl_nil]
  simp [applyEvent, h.1, h2]

/-- C10 (witness): a run with stdout `"  hello\n"` and exit code 0 resolves
with `"hello"`. -/
theorem c10_witness :
    (runEvents [ProcEvent.stdoutData "  hello\n", ProcEvent.closed 0]).settled
      = some (SettleResult.resolved "hello") := by
  have h := c10_exit_zero_resolves_trimmed_stdout [ProcEvent.stdoutData "  hello\n"] (by decide)
  exact h.trans (by decide)

